import Mathlib

/-!
Shallow embedding of the ZED X One ROS 2 camera component
(zed_components/src/zed_camera/include/zed_camera_one_component.hpp).

The header contributes two kinds of code:
* executable code: the template member ZedCameraOne::getParam (lines 198-220)
  and the in-class member initializers (lines 122-161);
* declarations only: the worker threads, timers and callbacks whose bodies
  live outside the excerpt.  Those behaviours are modelled from the spec and
  each such definition's doc comment says so explicitly.
-/

namespace stereolabs

/-- Abridged copy of the sl::ERROR_CODE enumeration of the ZED SDK: only the
values the component mentions (SUCCESS is the "Open" status; LAST is the
sentinel used before the camera is started). -/
inductive ERROR_CODE where
  | SUCCESS
  | FAILURE
  | CAMERA_NOT_DETECTED
  | LAST
deriving DecidableEq, Repr

/-- Abridged copy of the sl::RESOLUTION enumeration (values relevant to the
ZED X One component). -/
inductive RESOLUTION where
  | HD4K
  | HD1200
  | HD1080
  | SVGA
  | AUTO
deriving DecidableEq, Repr

/-- Abridged copy of the sl::MODEL enumeration (camera models relevant to the
component; ZED_XONE_GS is the header's default user model). -/
inductive MODEL where
  | ZED_XONE_GS
  | ZED_XONE_UHD
deriving DecidableEq, Repr

/-- Copy of the PubRes output-resolution policy of sl_types.hpp: publish at the
native grab resolution or at a custom downscaled resolution. -/
inductive PubRes where
  | NATIVE
  | CUSTOM
deriving DecidableEq, Repr

/-- Modelled from the spec: the invalid-temperature sentinel NOT_VALID_TEMP
(defined in sl_types.hpp, which is outside the excerpt).  Temperatures are
embedded as rationals; the sentinel is absolute zero in celsius. -/
def NOT_VALID_TEMP : ℚ := -27315 / 100

/-- State of a ZedCameraOne component: the "Parameters" and "Running status"
member blocks of the header (lines 122-161), in declaration order.  Floating
point members are embedded as rationals. -/
structure ZedCameraOne where
  cameraName : String
  camGrabFrameRate : Int
  camResol : RESOLUTION
  pubResolution : PubRes
  customDownscaleFactor : ℚ
  cameraFlip : Bool
  enableHDR : Bool
  openTimeout_sec : ℚ
  opencvCalibFile : String
  sdkVerbose : Int
  gpuId : Int
  camSerialNumber : Int
  camUserModel : MODEL
  svoFilepath : String
  svoRealtime : Bool
  streamAddr : String
  streamPort : Int
  debugMode : Bool
  svoMode : Bool
  streamMode : Bool
  connStatus : ERROR_CODE
  grabStatus : ERROR_CODE
  tempImu : ℚ
deriving DecidableEq, Repr

/-- The component state produced by construction: every field carries the
in-class member initializer given in the header (lines 122-161), before any
parameter is loaded.  Field order follows the structure above. -/
def initZedCameraOne : ZedCameraOne :=
  ⟨"zed_one", 30, RESOLUTION.HD1080, PubRes.NATIVE, 1, false, false, 5, "",
    0, -1, 0, MODEL.ZED_XONE_GS, "", true, "", 10000,
    false, false, false, ERROR_CODE.LAST, ERROR_CODE.LAST, NOT_VALID_TEMP⟩

/-- Modelled from the spec: dynamically typed parameter values held by the
external parameter subsystem (rclcpp::ParameterValue). -/
inductive ParamValue where
  | pvBool (b : Bool)
  | pvInt (i : Int)
  | pvDouble (q : ℚ)
  | pvString (s : String)
deriving DecidableEq, Repr

/-- Copy of rcl_interfaces::msg::ParameterDescriptor restricted to the one
field the component sets (read_only, header line 204). -/
structure ParameterDescriptor where
  read_only : Bool
deriving DecidableEq, Repr

/-- One declared parameter held by the external parameter subsystem: its name,
its current value and the descriptor it was declared with. -/
structure ParamEntry where
  name : String
  value : ParamValue
  descriptor : ParameterDescriptor
deriving DecidableEq, Repr

/-- The external parameter subsystem's store of declared parameters. -/
abbrev ParamStore := List ParamEntry

/-- Parameter overrides supplied at node construction (name to value). -/
abbrev ParamOverrides := List (String × ParamValue)

/-- Look up a declared parameter by name. -/
def lookupParam (store : ParamStore) (name : String) : Option ParamEntry :=
  store.find? (fun e => e.name == name)

/-- Modelled from the spec: the external parameter subsystem's
declareParameter(name, default, readOnly) interface (spec section 6).  A newly
declared parameter takes the caller-supplied override value when one exists,
otherwise the given default; a name that is already declared is left as is. -/
def declare_parameter (overrides : ParamOverrides) (store : ParamStore)
    (name : String) (defVal : ParamValue) (descriptor : ParameterDescriptor) :
    ParamStore :=
  if store.any (fun e => e.name == name) then store
  else
    ⟨name, ((overrides.find? (fun p => p.1 == name)).map Prod.snd).getD defVal,
      descriptor⟩ :: store

/-- Modelled from the spec: the external parameter subsystem's typed read
(rclcpp get_parameter).  It yields the stored value when the parameter is
declared and its value decodes at the requested type, and nothing otherwise;
on failure the caller's output variable is not written. -/
def get_parameter {T : Type} (decode : ParamValue → Option T)
    (store : ParamStore) (name : String) : Option T :=
  match lookupParam store name with
  | some e => decode e.value
  | none => none

/-- Result of one ZedCameraOne::getParam call: the parameter store after the
declaration, the value left in the output variable outVal, and whether the
default-value warning was logged. -/
structure GetParamResult (T : Type) where
  store : ParamStore
  outVal : T
  warned : Bool
deriving Repr

/-- Embedding of the template member ZedCameraOne::getParam (header lines
198-220), with the template type T presented by an encode/decode pair.  It
builds a descriptor whose read_only field is the negation of dynamic, declares
the parameter with the given default, and reads it back: on a successful read
the output variable receives the stored value; on a failed read the output
variable is left at its prior value outVal and a warning is logged claiming
the default value is used. -/
def getParam {T : Type} (encode : T → ParamValue) (decode : ParamValue → Option T)
    (overrides : ParamOverrides) (store : ParamStore)
    (paramName : String) (defValue : T) (outVal : T) (dynamic : Bool) :
    GetParamResult T :=
  let descriptor : ParameterDescriptor := ⟨!dynamic⟩
  let store2 := declare_parameter overrides store paramName (encode defValue) descriptor
  match get_parameter decode store2 paramName with
  | some v => ⟨store2, v, false⟩
  | none => ⟨store2, outVal, true⟩

/-- Calls of getParam that omit the trailing argument: the header declares the
default argument dynamic = false (line 55). -/
def getParamDefault {T : Type} (encode : T → ParamValue) (decode : ParamValue → Option T)
    (overrides : ParamOverrides) (store : ParamStore)
    (paramName : String) (defValue : T) (outVal : T) : GetParamResult T :=
  getParam encode decode overrides store paramName defValue outVal false

/-- Encoding of int parameter values. -/
def encodeInt (i : Int) : ParamValue := ParamValue.pvInt i

/-- Decoding of int parameter values. -/
def decodeInt : ParamValue → Option Int
  | ParamValue.pvInt i => some i
  | _ => none

/-- Reasons the Dynamic Reconfiguration Gate rejects a proposed parameter
change (spec section 4.7). -/
inductive RejectReason where
  | ReadOnly
  | InvalidValue
deriving DecidableEq, Repr

/-- Copy of rcl_interfaces::msg::SetParametersResult: the accept/reject answer
returned by the parameter-change callback. -/
structure SetParametersResult where
  successful : Bool
  reason : String
deriving DecidableEq, Repr

/-- Modelled from the spec: validation step of the Dynamic Reconfiguration
Gate (spec section 4.7): a parameter declared read-only is rejected with
RejectReason.ReadOnly; an unknown parameter is rejected with
RejectReason.InvalidValue; otherwise the change is acceptable. -/
def validateParamChange (store : ParamStore) (name : String) :
    Option RejectReason :=
  match lookupParam store name with
  | some e => if e.descriptor.read_only then some RejectReason.ReadOnly else none
  | none => some RejectReason.InvalidValue

/-- Set the stored value of a declared parameter, leaving its descriptor. -/
def applyParamChange (store : ParamStore) (name : String) (v : ParamValue) :
    ParamStore :=
  store.map (fun e => if e.name == name then ⟨e.name, v, e.descriptor⟩ else e)

/-- Modelled from the spec: ZedCameraOne::callback_paramChange, whose body is
outside the excerpt (only declared at header lines 63-64).  It receives a
batch of proposed parameter changes; if any proposed parameter is registered
read-only the whole batch is rejected with a read-only reason and the store is
left untouched, if any is unknown the batch is rejected as invalid, and
otherwise every change is applied.  Returns the result and the store after
the call. -/
def callback_paramChange (store : ParamStore)
    (changes : List (String × ParamValue)) :
    SetParametersResult × ParamStore :=
  match changes.findSome? (fun c => validateParamChange store c.1) with
  | some RejectReason.ReadOnly => (⟨false, "The parameter is read-only"⟩, store)
  | some RejectReason.InvalidValue => (⟨false, "Invalid parameter"⟩, store)
  | none =>
      (⟨true, ""⟩, changes.foldl (fun s c => applyParamChange s c.1 c.2) store)

/-- Roles of the three worker threads declared at header lines 77-79
(_grabThread, _videoThread, _sensThread). -/
inductive WorkerRole where
  | acquisition
  | videoPublish
  | sensorPublish
deriving DecidableEq, Repr

/-- Roles of the timer-driven tasks declared at header lines 82-83 and 151
(_initTimer, _tempPubTimer and the periodic diagnostic updater _diagUpdater). -/
inductive TimerRole where
  | initTimer
  | tempPub
  | diagnostics
deriving DecidableEq, Repr

/-- One concurrent task of the running component: either a dedicated worker
thread or a timer-driven task. -/
inductive RuntimeTask where
  | workerThread (r : WorkerRole)
  | timerTask (t : TimerRole)
deriving DecidableEq, Repr

/-- The complete inventory of threads and timers declared by the header
(lines 76-84 and 150-152): three worker threads and three timer tasks. -/
def runtimeTasks : List RuntimeTask :=
  [RuntimeTask.workerThread WorkerRole.acquisition,
   RuntimeTask.workerThread WorkerRole.videoPublish,
   RuntimeTask.workerThread WorkerRole.sensorPublish,
   RuntimeTask.timerTask TimerRole.initTimer,
   RuntimeTask.timerTask TimerRole.tempPub,
   RuntimeTask.timerTask TimerRole.diagnostics]

/-- Whether a runtime task is one of the dedicated worker threads. -/
def isWorkerThread : RuntimeTask → Bool
  | RuntimeTask.workerThread _ => true
  | RuntimeTask.timerTask _ => false

/-- Modelled from the spec: where a task runs (spec section 5): each worker
has its own parallel thread; the timer tasks run on a shared scheduler
separate from the worker threads. -/
inductive Scheduler where
  | dedicatedThread (r : WorkerRole)
  | sharedTimerScheduler
deriving DecidableEq, Repr

/-- Scheduler assignment of each runtime task (spec section 5). -/
def scheduleOf : RuntimeTask → Scheduler
  | RuntimeTask.workerThread r => Scheduler.dedicatedThread r
  | RuntimeTask.timerTask _ => Scheduler.sharedTimerScheduler

/-- Modelled from the spec: the shape shared by every worker loop (spec
sections 4.2-4.4 and 5, Cancellation).  stopFlag i is the value the loop
reads from the single shared atomic stop flag _threadStop (header line 81) at
its i-th iteration check; the flag is written by other threads, so it is a
function of the check index.  The loop checks the flag exactly once per
iteration and exits cleanly when it is set; otherwise it performs its work and
continues.  Fuel bounds the number of iterations modelled; the result is the
payload state together with some i when the loop exited cleanly at check i,
or none when the fuel ran out with the flag never observed set. -/
def workerLoop {σ : Type} (stopFlag : Nat → Bool) (doWork : σ → σ) :
    Nat → Nat → σ → σ × Option Nat
  | 0, _, s => (s, none)
  | fuel + 1, i, s =>
      if stopFlag i then (s, some i)
      else workerLoop stopFlag doWork fuel (i + 1) (doWork s)

/-- Modelled from the spec: the acquisition (grab) worker loop run on
_grabThread; its payload is abstracted to the number of grab calls issued. -/
def grabLoop (stopFlag : Nat → Bool) (fuel : Nat) : Nat × Option Nat :=
  workerLoop stopFlag (fun grabs => grabs + 1) fuel 0 0

/-- Modelled from the spec: the video publish worker loop run on _videoThread;
its payload is abstracted to the number of frames published. -/
def videoLoop (stopFlag : Nat → Bool) (fuel : Nat) : Nat × Option Nat :=
  workerLoop stopFlag (fun frames => frames + 1) fuel 0 0

/-- Modelled from the spec: the sensor publish worker loop run on _sensThread;
its payload is abstracted to the number of sensor samples published. -/
def sensLoop (stopFlag : Nat → Bool) (fuel : Nat) : Nat × Option Nat :=
  workerLoop stopFlag (fun samples => samples + 1) fuel 0 0

/-- The four image publish channels of the component, one per image publisher
declared at header lines 112-115 (_pubColorImg, _pubColorRawImg, _pubGrayImg,
_pubGrayRawImg) and per image topic at lines 103-106. -/
inductive VideoChannel where
  | color
  | colorRaw
  | gray
  | grayRaw
deriving DecidableEq, Repr

/-- The list of the component's image publish channels. -/
def videoChannels : List VideoChannel :=
  [VideoChannel.color, VideoChannel.colorRaw, VideoChannel.gray,
   VideoChannel.grayRaw]

/-- Modelled from the spec: one iteration of the Video Publish Loop (spec
section 4.3), whose body is outside the excerpt.  Given the
subscriber-presence flag of each channel, it emits the current frame on
exactly the subscribed channels; unsubscribed channels are skipped entirely.
The result is the list of channels on which a publication occurs. -/
def videoPublishIteration (hasSubscribers : VideoChannel → Bool) :
    List VideoChannel :=
  videoChannels.filter hasSubscribers

/-- State read and written by the temperature poll timer: the stored IMU
temperature _tempImu (header line 160) and whether the timer _tempPubTimer
(header line 83) is still scheduled. -/
structure TempPollState where
  tempImu : ℚ
  timerActive : Bool
deriving DecidableEq, Repr

/-- Outcome of one firing of the temperature poll timer: the state after the
firing, the value republished, and whether a publication happened. -/
structure TempPollOutcome where
  state : TempPollState
  published : ℚ
  didPublish : Bool
deriving DecidableEq, Repr

/-- Modelled from the spec: ZedCameraOne::callback_pubTemp, whose body is
outside the excerpt (declared at header line 67), per spec section 4.5.
reading is the result of reading the camera temperature (none on a failed
read).  On success the stored temperature is updated and republished; on
failure the stored temperature is set to the sentinel NOT_VALID_TEMP and that
reading is still republished; in both cases the timer keeps its schedule. -/
def callback_pubTemp (reading : Option ℚ) (s : TempPollState) :
    TempPollOutcome :=
  match reading with
  | some t => ⟨⟨t, s.timerActive⟩, t, true⟩
  | none => ⟨⟨NOT_VALID_TEMP, s.timerActive⟩, NOT_VALID_TEMP, true⟩

/-- Health levels of a diagnostic report (diagnostic_updater summary). -/
inductive DiagLevel where
  | OK
  | Warn
  | Error
deriving DecidableEq, Repr

/-- The point-in-time signals a diagnostic request reads: connection and grab
status, ages of the last frame and last temperature reading, the stored
temperature, and liveness of the three worker threads. -/
structure DiagSnapshot where
  connStatus : ERROR_CODE
  grabStatus : ERROR_CODE
  frameAge : ℚ
  tempAge : ℚ
  tempImu : ℚ
  grabThreadAlive : Bool
  videoThreadAlive : Bool
  sensThreadAlive : Bool
deriving DecidableEq, Repr

/-- Whether a connection status is the Open (success) status. -/
def connIsOpen (c : ERROR_CODE) : Bool := decide (c = ERROR_CODE.SUCCESS)

/-- Whether all three worker threads are alive in a snapshot. -/
def allThreadsAlive (s : DiagSnapshot) : Bool :=
  s.grabThreadAlive && s.videoThreadAlive && s.sensThreadAlive

/-- Modelled from the spec: the health classification computed by
ZedCameraOne::callback_updateDiagnostic, whose body is outside the excerpt
(declared at header lines 65-66), per spec section 4.6: Error if the
connection is not Open or any worker thread has died; Warn if the frame age or
the temperature age exceeds the staleness threshold; OK otherwise. -/
def classifyDiag (threshold : ℚ) (s : DiagSnapshot) : DiagLevel :=
  if connIsOpen s.connStatus = false ∨ allThreadsAlive s = false then
    DiagLevel.Error
  else if threshold < s.frameAge ∨ threshold < s.tempAge then DiagLevel.Warn
  else DiagLevel.OK

/-- Modelled from the spec: ZedCameraOne::callback_updateDiagnostic as the
component sees it: a pure read that renders the classification of the given
snapshot and returns the component state unchanged (spec section 4.6: the
aggregator never mutates any other component's state). -/
def callback_updateDiagnostic (threshold : ℚ) (z : ZedCameraOne)
    (s : DiagSnapshot) : DiagLevel × ZedCameraOne :=
  (classifyDiag threshold s, z)

/-- The diagnostic snapshot taken from a component state: connection status,
grab status and stored temperature come from the component; the ages and the
thread-liveness flags are supplied by the clock and the thread registry. -/
def snapshotOfState (z : ZedCameraOne) (frameAge tempAge : ℚ)
    (grabAlive videoAlive sensAlive : Bool) : DiagSnapshot :=
  ⟨z.connStatus, z.grabStatus, frameAge, tempAge, z.tempImu,
    grabAlive, videoAlive, sensAlive⟩

/-! Helper lemmas shared by the claim theorems. -/

/-- A fresh declaration prepends one entry holding the override value when one
exists, the default otherwise, under the given descriptor. -/
theorem declare_parameter_fresh (ov : ParamOverrides) (store : ParamStore)
    (name : String) (v : ParamValue) (d : ParameterDescriptor)
    (h : store.any (fun e => e.name == name) = false) :
    declare_parameter ov store name v d =
      ⟨name, ((ov.find? (fun p => p.1 == name)).map Prod.snd).getD v, d⟩ ::
        store := by
  simp [declare_parameter, h]

/-- The store a getParam call returns is exactly the store after its
declaration step, whichever branch the read takes. -/
theorem getParam_store_eq {T : Type} (enc : T → ParamValue)
    (dec : ParamValue → Option T) (ov : ParamOverrides) (store : ParamStore)
    (name : String) (dv out : T) (dyn : Bool) :
    (getParam enc dec ov store name dv out dyn).store =
      declare_parameter ov store name (enc dv) ⟨!dyn⟩ := by
  unfold getParam
  cases h : get_parameter dec (declare_parameter ov store name (enc dv) ⟨!dyn⟩) name <;>
    simp [h]

/-- A worker loop that exits cleanly does so at a check where the stop flag
was observed set: the flag is the loop's only exit condition. -/
theorem workerLoop_exit_flag {σ : Type} (flag : Nat → Bool) (f : σ → σ) :
    ∀ (fuel i : Nat) (s s' : σ) (j : Nat),
      workerLoop flag f fuel i s = (s', some j) → flag j = true := by
  intro fuel
  induction fuel with
  | zero => intro i s s' j h; simp [workerLoop] at h
  | succ n ih =>
      intro i s s' j h
      by_cases hf : flag i = true
      · simp [workerLoop, hf] at h
        rcases h with ⟨-, h2⟩
        rw [← h2]
        exact hf
      · simp only [workerLoop, hf, Bool.false_eq_true, if_false] at h
        exact ih (i + 1) (f s) s' j h

/-- Once the stop flag is set at some check index within the fuel bound, the
loop exits cleanly no later than that index. -/
theorem workerLoop_exits {σ : Type} (flag : Nat → Bool) (f : σ → σ) :
    ∀ (fuel i k : Nat) (s : σ), i ≤ k → k < i + fuel → flag k = true →
      ∃ (s' : σ) (j : Nat), j ≤ k ∧ workerLoop flag f fuel i s = (s', some j) := by
  intro fuel
  induction fuel with
  | zero => intro i k s h1 h2 h3; omega
  | succ n ih =>
      intro i k s h1 h2 h3
      by_cases hf : flag i = true
      · exact ⟨s, i, h1, by simp [workerLoop, hf]⟩
      · have hik : i ≠ k := fun he => hf (he ▸ h3)
        obtain ⟨s', j, hj, hw⟩ := ih (i + 1) k (f s) (by omega) (by omega) h3
        refine ⟨s', j, hj, ?_⟩
        simp only [workerLoop, hf, Bool.false_eq_true, if_false]
        exact hw

/-! Claim theorems. -/

/-- C1: the claim states that when the parameter lookup after the declaration
does not succeed, the output value used is the provided default.  The code
logs a warning claiming the default is used but never assigns the default to
the output variable: evaluated at a store where the lookup fails (a
wrong-typed override) with prior output value 0 and default 5, the call warns
yet leaves the output at 0, not 5. -/
theorem getParam_failed_lookup_keeps_prior_value :
    getParam encodeInt decodeInt
        [("general.grab_frame_rate", ParamValue.pvBool true)] []
        "general.grab_frame_rate" 5 0 false =
      ⟨[⟨"general.grab_frame_rate", ParamValue.pvBool true, ⟨true⟩⟩], 0, true⟩ ∧
    (0 : Int) ≠ 5 :=
  ⟨rfl, by decide⟩

/-- C2: every getParam call declares its parameter under a descriptor whose
read_only field is the negation of the dynamic argument, and a call that
omits the argument uses dynamic = false, so parameters are read-only unless
explicitly declared dynamic. -/
theorem getParam_read_only_iff_not_dynamic :
    (∀ (T : Type) (enc : T → ParamValue) (dec : ParamValue → Option T)
        (ov : ParamOverrides) (store : ParamStore) (name : String)
        (dv out : T) (dyn : Bool),
        store.any (fun e => e.name == name) = false →
        ∃ e : ParamEntry,
          lookupParam (getParam enc dec ov store name dv out dyn).store name =
              some e ∧
            e.descriptor.read_only = !dyn) ∧
    (∀ (T : Type) (enc : T → ParamValue) (dec : ParamValue → Option T)
        (ov : ParamOverrides) (store : ParamStore) (name : String) (dv out : T),
        getParamDefault enc dec ov store name dv out =
          getParam enc dec ov store name dv out false) := by
  constructor
  · intro T enc dec ov store name dv out dyn h
    refine ⟨⟨name, ((ov.find? (fun p => p.1 == name)).map Prod.snd).getD (enc dv),
      ⟨!dyn⟩⟩, ?_, rfl⟩
    rw [getParam_store_eq, declare_parameter_fresh ov store name (enc dv) ⟨!dyn⟩ h]
    simp [lookupParam, List.find?]
  · intro T enc dec ov store name dv out
    rfl

/-- Witness for C2: a fresh declaration of parameter p with dynamic = true
yields an entry that is not read-only, and a call omitting the dynamic
argument equals the call with dynamic = false. -/
theorem getParam_read_only_iff_not_dynamic_witness :
    (∃ e : ParamEntry,
        lookupParam (getParam encodeInt decodeInt [] [] "p" 7 0 true).store "p" =
            some e ∧
          e.descriptor.read_only = !true) ∧
    getParamDefault encodeInt decodeInt [] [] "p" 7 0 =
      getParam encodeInt decodeInt [] [] "p" 7 0 false :=
  ⟨getParam_read_only_iff_not_dynamic.1 Int encodeInt decodeInt [] [] "p" 7 0
      true (by decide),
    getParam_read_only_iff_not_dynamic.2 Int encodeInt decodeInt [] [] "p" 7 0⟩

/-- C3: the single shared atomic stop flag is the only cancellation
primitive: each of the three worker loops checks it once per iteration, a
clean exit happens only at a check where the flag was set, and once the flag
is set within the fuel bound every loop exits cleanly no later than that
check. -/
theorem threadStop_sole_cancellation :
    (∀ (stopFlag : Nat → Bool) (fuel grabs j : Nat),
        grabLoop stopFlag fuel = (grabs, some j) → stopFlag j = true) ∧
    (∀ (stopFlag : Nat → Bool) (fuel frames j : Nat),
        videoLoop stopFlag fuel = (frames, some j) → stopFlag j = true) ∧
    (∀ (stopFlag : Nat → Bool) (fuel samples j : Nat),
        sensLoop stopFlag fuel = (samples, some j) → stopFlag j = true) ∧
    (∀ (stopFlag : Nat → Bool) (k fuel : Nat), stopFlag k = true → k < fuel →
        (∃ g j, j ≤ k ∧ grabLoop stopFlag fuel = (g, some j)) ∧
        (∃ f j, j ≤ k ∧ videoLoop stopFlag fuel = (f, some j)) ∧
        (∃ s j, j ≤ k ∧ sensLoop stopFlag fuel = (s, some j))) := by
  refine ⟨?_, ?_, ?_, ?_⟩
  · intro flag fuel g j h
    exact workerLoop_exit_flag flag _ fuel 0 0 g j h
  · intro flag fuel fr j h
    exact workerLoop_exit_flag flag _ fuel 0 0 fr j h
  · intro flag fuel sa j h
    exact workerLoop_exit_flag flag _ fuel 0 0 sa j h
  · intro flag k fuel hk hfuel
    refine ⟨?_, ?_, ?_⟩ <;>
      · obtain ⟨s', j, hj, hw⟩ :=
          workerLoop_exits flag (fun n => n + 1) fuel 0 k 0 (Nat.zero_le k)
            (by omega) hk
        exact ⟨s', j, hj, hw⟩

/-- Witness for C3: with a flag first set at check 1 and fuel 3, the video
loop exits cleanly by check 1, and applying the exit lemma to the concrete
run of the grab loop recovers that the flag was set where it exited. -/
theorem threadStop_sole_cancellation_witness :
    ((fun i : Nat => decide (i = 1)) 1 = true) ∧
    (∃ f j, j ≤ 1 ∧ videoLoop (fun i : Nat => decide (i = 1)) 3 = (f, some j)) :=
  ⟨threadStop_sole_cancellation.1 (fun i => decide (i = 1)) 3 1 1 (by decide),
    (threadStop_sole_cancellation.2.2.2 (fun i => decide (i = 1)) 1 3 (by decide)
        (by decide)).2.1⟩

/-- C4: the declared runtime is exactly three worker threads, one each for
acquisition, video publishing and sensor publishing, plus timer-driven tasks
including temperature polling and diagnostics, and the timer tasks run on the
shared timer scheduler while every worker thread runs on its own dedicated
thread, not on that scheduler. -/
theorem runtime_three_workers_plus_timer_tasks :
    runtimeTasks.filter isWorkerThread =
      [RuntimeTask.workerThread WorkerRole.acquisition,
        RuntimeTask.workerThread WorkerRole.videoPublish,
        RuntimeTask.workerThread WorkerRole.sensorPublish] ∧
    (runtimeTasks.filter isWorkerThread).length = 3 ∧
    RuntimeTask.timerTask TimerRole.tempPub ∈ runtimeTasks ∧
    RuntimeTask.timerTask TimerRole.diagnostics ∈ runtimeTasks ∧
    isWorkerThread (RuntimeTask.timerTask TimerRole.tempPub) = false ∧
    isWorkerThread (RuntimeTask.timerTask TimerRole.diagnostics) = false ∧
    (runtimeTasks.filter (fun t => !(isWorkerThread t))).all
        (fun t => scheduleOf t == Scheduler.sharedTimerScheduler) = true ∧
    (runtimeTasks.filter isWorkerThread).all
        (fun t => !(scheduleOf t == Scheduler.sharedTimerScheduler)) = true := by
  decide

/-- C5: the Video Publish Loop has exactly the four image channels color,
color-raw, gray and gray-raw, and one of its iterations publishes on a
channel exactly when that channel is one of the four and has at least one
subscriber. -/
theorem videoPublish_four_channels_subscriber_gated :
    videoChannels =
      [VideoChannel.color, VideoChannel.colorRaw, VideoChannel.gray,
        VideoChannel.grayRaw] ∧
    videoChannels.length = 4 ∧
    videoChannels.Nodup ∧
    (∀ c : VideoChannel, c ∈ videoChannels) ∧
    (∀ (hasSubscribers : VideoChannel → Bool) (c : VideoChannel),
        c ∈ videoPublishIteration hasSubscribers ↔
          c ∈ videoChannels ∧ hasSubscribers c = true) := by
  refine ⟨rfl, rfl, by decide, ?_, ?_⟩
  · intro c
    cases c <;> simp [videoChannels]
  · intro subs c
    simp [videoPublishIteration, List.mem_filter]

/-- Witness for C5: with only the color channel subscribed, an iteration
publishes on the color channel and not on the gray channel. -/
theorem videoPublish_four_channels_subscriber_gated_witness :
    VideoChannel.color ∈
        videoPublishIteration (fun c => c == VideoChannel.color) ∧
    VideoChannel.gray ∉
        videoPublishIteration (fun c => c == VideoChannel.color) :=
  ⟨(videoPublish_four_channels_subscriber_gated.2.2.2.2
        (fun c => c == VideoChannel.color) VideoChannel.color).mpr
      ⟨by decide, by decide⟩,
    fun h =>
      absurd
        ((videoPublish_four_channels_subscriber_gated.2.2.2.2
              (fun c => c == VideoChannel.color) VideoChannel.gray).mp h).2
        (by decide)⟩

/-- C6: on a firing whose temperature read fails, the stored temperature is
set to the sentinel NOT_VALID_TEMP and that reading is still republished, the
timer keeps its schedule, and on a successful read the read value is stored
and republished. -/
theorem callback_pubTemp_failure_sentinel :
    ∀ (s : TempPollState) (t : ℚ),
      (callback_pubTemp none s).state.tempImu = NOT_VALID_TEMP ∧
      (callback_pubTemp none s).published = NOT_VALID_TEMP ∧
      (callback_pubTemp none s).didPublish = true ∧
      (callback_pubTemp none s).state.timerActive = s.timerActive ∧
      (callback_pubTemp (some t) s).state.tempImu = t ∧
      (callback_pubTemp (some t) s).didPublish = true ∧
      (callback_pubTemp (some t) s).state.timerActive = s.timerActive :=
  fun _ _ => ⟨rfl, rfl, rfl, rfl, rfl, rfl, rfl⟩

/-- Witness for C6: a failed read over an active timer with stored
temperature 20 republishes the sentinel and leaves the timer active. -/
theorem callback_pubTemp_failure_sentinel_witness :
    (callback_pubTemp none ⟨20, true⟩).state.tempImu = NOT_VALID_TEMP ∧
    (callback_pubTemp none ⟨20, true⟩).state.timerActive = true :=
  ⟨(callback_pubTemp_failure_sentinel ⟨20, true⟩ 0).1,
    (callback_pubTemp_failure_sentinel ⟨20, true⟩ 0).2.2.2.1⟩

/-- C7: a proposed change to a parameter registered read-only is rejected by
callback_paramChange with the read-only reason, the store is returned
unchanged and the previous entry remains in effect. -/
theorem callback_paramChange_rejects_read_only :
    ∀ (store : ParamStore) (name : String) (v : ParamValue) (e : ParamEntry),
      lookupParam store name = some e →
      e.descriptor.read_only = true →
      (callback_paramChange store [(name, v)]).1.successful = false ∧
      (callback_paramChange store [(name, v)]).1.reason =
        "The parameter is read-only" ∧
      (callback_paramChange store [(name, v)]).2 = store ∧
      lookupParam (callback_paramChange store [(name, v)]).2 name = some e := by
  intro store name v e hl hro
  have hv : validateParamChange store name = some RejectReason.ReadOnly := by
    simp [validateParamChange, hl, hro]
  have hc : callback_paramChange store [(name, v)] =
      (⟨false, "The parameter is read-only"⟩, store) := by
    simp [callback_paramChange, hv]
  refine ⟨?_, ?_, ?_, ?_⟩ <;> rw [hc]
  exact hl

/-- Witness for C7: a store holding the read-only parameter p with value 5
rejects the proposed change of p to 8 and keeps the stored entry. -/
theorem callback_paramChange_rejects_read_only_witness :
    (callback_paramChange [⟨"p", ParamValue.pvInt 5, ⟨true⟩⟩]
          [("p", ParamValue.pvInt 8)]).1.successful = false ∧
    (callback_paramChange [⟨"p", ParamValue.pvInt 5, ⟨true⟩⟩]
          [("p", ParamValue.pvInt 8)]).2 =
      [⟨"p", ParamValue.pvInt 5, ⟨true⟩⟩] :=
  ⟨(callback_paramChange_rejects_read_only [⟨"p", ParamValue.pvInt 5, ⟨true⟩⟩]
        "p" (ParamValue.pvInt 8) ⟨"p", ParamValue.pvInt 5, ⟨true⟩⟩ rfl rfl).1,
    (callback_paramChange_rejects_read_only [⟨"p", ParamValue.pvInt 5, ⟨true⟩⟩]
        "p" (ParamValue.pvInt 8) ⟨"p", ParamValue.pvInt 5, ⟨true⟩⟩ rfl
        rfl).2.2.1⟩

/-- C8: a diagnostic request renders a classification that is exactly one of
OK, Warn or Error, computed as Error when the connection is not Open or a
worker thread has died, Warn when the connection is healthy but the frame or
temperature age exceeds the staleness threshold, and OK otherwise, and the
request returns the component state unchanged. -/
theorem callback_updateDiagnostic_classification :
    ∀ (th : ℚ) (z : ZedCameraOne) (s : DiagSnapshot),
      (callback_updateDiagnostic th z s).1 = classifyDiag th s ∧
      (callback_updateDiagnostic th z s).2 = z ∧
      (classifyDiag th s = DiagLevel.OK ∨ classifyDiag th s = DiagLevel.Warn ∨
        classifyDiag th s = DiagLevel.Error) ∧
      ((connIsOpen s.connStatus = false ∨ allThreadsAlive s = false) →
        classifyDiag th s = DiagLevel.Error) ∧
      (connIsOpen s.connStatus = true → allThreadsAlive s = true →
        (th < s.frameAge ∨ th < s.tempAge) → classifyDiag th s = DiagLevel.Warn) ∧
      (connIsOpen s.connStatus = true → allThreadsAlive s = true →
        s.frameAge ≤ th → s.tempAge ≤ th → classifyDiag th s = DiagLevel.OK) := by
  intro th z s
  refine ⟨rfl, rfl, ?_, ?_, ?_, ?_⟩
  · unfold classifyDiag
    split_ifs <;> simp
  · intro h
    unfold classifyDiag
    rw [if_pos h]
  · intro h1 h2 h3
    unfold classifyDiag
    rw [if_neg (by simp [h1, h2]), if_pos h3]
  · intro h1 h2 h3 h4
    unfold classifyDiag
    rw [if_neg (by simp [h1, h2]),
      if_neg (by simp only [not_or, not_lt]; exact ⟨h3, h4⟩)]

/-- Witness for C8: with threshold 10, a healthy snapshot classifies OK and a
snapshot whose connection is the LAST sentinel classifies Error. -/
theorem callback_updateDiagnostic_classification_witness :
    classifyDiag 10
        ⟨ERROR_CODE.SUCCESS, ERROR_CODE.SUCCESS, 0, 0, 25, true, true, true⟩ =
      DiagLevel.OK ∧
    classifyDiag 10
        ⟨ERROR_CODE.LAST, ERROR_CODE.LAST, 0, 0, 25, true, true, true⟩ =
      DiagLevel.Error :=
  ⟨(callback_updateDiagnostic_classification 10 initZedCameraOne
        ⟨ERROR_CODE.SUCCESS, ERROR_CODE.SUCCESS, 0, 0, 25, true, true,
          true⟩).2.2.2.2.2 (by decide) (by decide) (by decide) (by decide),
    (callback_updateDiagnostic_classification 10 initZedCameraOne
        ⟨ERROR_CODE.LAST, ERROR_CODE.LAST, 0, 0, 25, true, true,
          true⟩).2.2.2.1 (by decide)⟩

/-- C9: at construction the connection and grab statuses hold the LAST
sentinel and the stored temperature holds NOT_VALID_TEMP, so every diagnostic
snapshot taken before startup observes a not-Open connection and the invalid
temperature, and classifies as Error. -/
theorem initial_status_before_startup :
    initZedCameraOne.connStatus = ERROR_CODE.LAST ∧
    initZedCameraOne.grabStatus = ERROR_CODE.LAST ∧
    initZedCameraOne.tempImu = NOT_VALID_TEMP ∧
    connIsOpen initZedCameraOne.connStatus = false ∧
    ∀ (frameAge tempAge : ℚ) (ga va sa : Bool) (th : ℚ),
      (snapshotOfState initZedCameraOne frameAge tempAge ga va sa).connStatus ≠
          ERROR_CODE.SUCCESS ∧
        connIsOpen
            (snapshotOfState initZedCameraOne frameAge tempAge ga va
                sa).connStatus = false ∧
        (snapshotOfState initZedCameraOne frameAge tempAge ga va sa).tempImu =
          NOT_VALID_TEMP ∧
        classifyDiag th
            (snapshotOfState initZedCameraOne frameAge tempAge ga va sa) =
          DiagLevel.Error :=
  ⟨rfl, rfl, rfl, rfl, fun _ _ _ _ _ _ =>
    ⟨fun h => ERROR_CODE.noConfusion h, rfl, rfl, rfl⟩⟩

/-- Witness for C9: the diagnostic snapshot of the freshly constructed
component with zero ages and all threads alive classifies as Error. -/
theorem initial_status_before_startup_witness :
    classifyDiag 0 (snapshotOfState initZedCameraOne 0 0 true true true) =
      DiagLevel.Error :=
  (initial_status_before_startup.2.2.2.2 0 0 true true true 0).2.2.2

/-- C10: the construction-time defaults are grab frame rate 30, resolution
HD1080, native output-resolution policy with custom downscale factor 1,
camera flip disabled, HDR disabled, open timeout 5 seconds, SDK verbosity 0,
serial number 0, SVO real-time playback enabled, and stream port 10000. -/
theorem construction_time_defaults :
    initZedCameraOne.camGrabFrameRate = 30 ∧
    initZedCameraOne.camResol = RESOLUTION.HD1080 ∧
    initZedCameraOne.pubResolution = PubRes.NATIVE ∧
    initZedCameraOne.customDownscaleFactor = 1 ∧
    initZedCameraOne.cameraFlip = false ∧
    initZedCameraOne.enableHDR = false ∧
    initZedCameraOne.openTimeout_sec = 5 ∧
    initZedCameraOne.sdkVerbose = 0 ∧
    initZedCameraOne.camSerialNumber = 0 ∧
    initZedCameraOne.svoRealtime = true ∧
    initZedCameraOne.streamPort = 10000 :=
  ⟨rfl, rfl, rfl, rfl, rfl, rfl, rfl, rfl, rfl, rfl, rfl⟩

end stereolabs
